import Mathlib

/-!
Shallow embedding of `src/i10_bluesky/plans/utils/alignments.py`.

Numeric values are modelled as exact rationals (`ℚ`).  Python `float`
arguments that print with a decimal point are modelled by `PyFloat`
(a decimal numeral `num / 10 ^ exp` with `exp ≥ 1` displayed fractional
digits, kept in the normalized form Python's `str` would print); an
integer-typed `size` argument is `PySize.ofInt`.  Fallible code returns
`Except PyError` values; plan generators are modelled as functions from
the outcomes of their collaborators (the wrapped scan, the move, the
readback value) to the trace of commands they emit.
-/

namespace I10Align

/-- Python exceptions raised by the code under `alignments.py`. -/
inductive PyError where
  | valueError (msg : String)
  | keyError (key : String)
  | indexError
  | typeError
  | validationError
  deriving DecidableEq, Repr

/-! ### Python numbers: `str(size)` and `str(int(size))` -/

/-- A Python float whose value is the decimal `num / 10 ^ exp`; `exp ≥ 1`
is implicit in how literals are written (e.g. `100.0` is `⟨1000, 1⟩`,
`100.5` is `⟨1005, 1⟩`). -/
structure PyFloat where
  num : Int
  exp : Nat
  deriving DecidableEq, Repr

/-- Left-pad a numeral string with zeros up to `n` characters. -/
def padZeros (s : String) (n : Nat) : String :=
  String.mk (List.replicate (n - s.length) '0') ++ s

/-- Python `str` on a (non-negative) decimal float: integer part, a dot,
then `exp` fractional digits. -/
def PyFloat.str (f : PyFloat) : String :=
  let p : Int := (10 : Int) ^ f.exp
  toString (f.num / p) ++ "." ++ padZeros (toString (f.num % p).toNat) f.exp

/-- Python `int()` on a float truncates toward zero. -/
def PyFloat.toInt (f : PyFloat) : Int :=
  f.num.tdiv ((10 : Int) ^ f.exp)

/-- The exact rational value of a decimal float. -/
def PyFloat.val (f : PyFloat) : ℚ :=
  (f.num : ℚ) / (10 : ℚ) ^ f.exp

/-- The `size` argument of `align_slit_with_look_up`: annotated `float`,
but callers may pass an `int`, and `str(size)` differs between the two. -/
inductive PySize where
  | ofInt (n : Int)
  | ofFloat (f : PyFloat)
  deriving DecidableEq, Repr

/-- Python `str(size)`. -/
def PySize.str : PySize → String
  | .ofInt n => toString n
  | .ofFloat f => f.str

/-- Python `int(size)`. -/
def PySize.toInt : PySize → Int
  | .ofInt n => n
  | .ofFloat f => f.toInt

/-- The numeric value of `size`, as an exact rational. -/
def PySize.val : PySize → ℚ
  | .ofInt n => n
  | .ofFloat f => f.val

/-! ### The lookup table -/

/-- The slit lookup table: a Python `dict[str, float]`, observed through
key lookup.  Modelled as an association list with distinct keys
understood as the dict's insertion order. -/
abbrev Table := List (String × ℚ)

/-- Python `d[k] = v` on a dict: overwrite the entry if the key is
present, otherwise append a new entry. -/
def Table.set (t : Table) (k : String) (v : ℚ) : Table :=
  if (t.lookup k).isSome then
    t.map (fun p => if k == p.1 then (k, v) else p)
  else
    t ++ [(k, v)]

/-- Modelled from the spec: `MotorTable.model_validate` comes from
`i10_bluesky.plans.utils.motors`, which is not among the source files
here.  The spec describes the schema as "all keys numeric-string, all
values numeric"; values are numeric by type in this embedding, so the
check is that every key is a decimal numeral: non-empty, only digits and
at most one decimal point, and at least one digit. -/
def isNumericString (s : String) : Bool :=
  !s.toList.isEmpty && s.toList.all (fun c => c.isDigit || c == '.')
    && (s.toList.count '.') ≤ 1 && s.toList.any Char.isDigit

/-- Modelled from the spec: the lookup-table schema check performed by
`MotorTable.model_validate(slit_table)`. -/
def validMotorTable (t : Table) : Bool :=
  t.all (fun p => isNumericString p.1)

/-- A table whose keys are all decimal **integer** text, the canonical
key form of the spec's Lookup Table data model. -/
def integerKeyed (t : Table) : Bool :=
  t.all (fun p => !p.1.toList.isEmpty && p.1.toList.all Char.isDigit)

/-! ### The `PeakPosition` enum -/

/-- The eight-member `PeakPosition` enum of `alignments.py`; each member
carries a `(group, field)` pair of strings. -/
inductive PeakPosition where
  | COM | CEN | MIN | MAX
  | D_COM | D_CEN | D_MIN | D_MAX
  deriving DecidableEq, Repr

/-- The `(group, field)` tuple value of each enum member. -/
def PeakPosition.value : PeakPosition → String × String
  | .COM => ("stats", "com")
  | .CEN => ("stats", "cen")
  | .MIN => ("stats", "min")
  | .MAX => ("stats", "max")
  | .D_COM => ("derivative_stats", "com")
  | .D_CEN => ("derivative_stats", "cen")
  | .D_MIN => ("derivative_stats", "min")
  | .D_MAX => ("derivative_stats", "max")

/-! ### Statistics results produced by the `PeakStats` collector -/

/-- A field of a fitted-statistics record: Python `None`, a single float,
or an ordered sequence of candidate floats. -/
inductive StatValue where
  | pyNone
  | scalar (x : ℚ)
  | seq (xs : List ℚ)
  deriving DecidableEq, Repr

/-- Python truthiness of a statistics field (`if not stat["fwhm"]`):
`None`, `0.0` and the empty sequence are falsy. -/
def StatValue.truthy : StatValue → Bool
  | .pyNone => false
  | .scalar x => decide (x ≠ 0)
  | .seq xs => !xs.isEmpty

/-- The fields of one statistics group (`_asdict()` view of the
`PeakStats` namedtuple entries the code reads). -/
structure StatsRecord where
  com : StatValue
  cen : StatValue
  min : StatValue
  max : StatValue
  fwhm : StatValue
  deriving DecidableEq, Repr

/-- String-keyed field access `stat[field]` into the `_asdict()` view. -/
def StatsRecord.field (r : StatsRecord) (name : String) : StatValue :=
  if name == "com" then r.com
  else if name == "cen" then r.cen
  else if name == "min" then r.min
  else if name == "max" then r.max
  else if name == "fwhm" then r.fwhm
  else .pyNone

/-- The finished `PeakStats` object: an optional record per group
(`none` models the group being absent or empty, which is falsy under
`if not peak_stat`). -/
structure PeakStatsObj where
  stats : Option StatsRecord
  derivative_stats : Option StatsRecord
  deriving DecidableEq, Repr

/-- Group access `ps[group]` for the two groups the enum selects. -/
def PeakStatsObj.get (ps : PeakStatsObj) (group : String) : Option StatsRecord :=
  if group == "stats" then ps.stats
  else if group == "derivative_stats" then ps.derivative_stats
  else none

/-! ### `get_stat_loc` -/

/-- `get_stat_loc(ps, loc)`.  Returns the extracted scalar or the raised
exception, paired with the list of lines the call printed to stdout
(the code contains a bare `print(stat)`). -/
def get_stat_loc (ps : PeakStatsObj) (loc : PeakPosition) :
    Except PyError ℚ × List String :=
  match ps.get loc.value.1 with
  | none =>
      (.error (.valueError "Fitting failed, check devices name are correct."), [])
  | some stat =>
      let printed := [reprStr stat]
      if !(stat.field "fwhm").truthy then
        (.error (.valueError "Fitting failed, no peak within scan range."), printed)
      else
        match stat.field loc.value.2 with
        | .scalar x => (.ok x, printed)
        | .seq [] => (.error .indexError, printed)
        | .seq (x :: _) => (.ok x, printed)
        | .pyNone => (.error .typeError, printed)

/-! ### The alignment wrapper `scan_and_move_to_fit_pos` -/

/-- Commands a plan emits, as observed by the RunEngine / hardware. -/
inductive Event where
  /-- one message of the wrapped scan (abstract index) -/
  | scanStep (i : Nat)
  /-- a stdout line printed while the plan runs -/
  | printOut (s : String)
  /-- `abs_set(motor, pos, wait=True)`: the move-to-fit command -/
  | moveCmd (pos : ℚ)
  /-- the `scan`/`cal_range_num` call boundary of the aligner: the
  arguments handed to the range calculator -/
  | rangeCalcCall (cen span step : ℚ)
  /-- the step scan being launched with the computed window -/
  | scanCall (start finish : ℚ) (num : Nat)
  /-- `read(motor.user_readback)` after the move -/
  | readReadback
  deriving DecidableEq, Repr

/-- Outcome of running the wrapped scan with the `PeakStats` callback
subscribed: either it completes, leaving the finished statistics, or it
fails partway with an exception. -/
inductive ScanResult where
  | ok (steps : List Nat) (ps : PeakStatsObj)
  | fail (steps : List Nat) (e : PyError)
  deriving DecidableEq, Repr

/-- The `inner` plan produced by the `scan_and_move_to_fit_pos`
decorator: run the wrapped scan under the `PeakStats` subscription, then
`get_stat_loc`, then `abs_set(motor, peak_position, wait=True)`.
`moveErr` is the outcome of the move command when one is issued
(`none` = motion completes).  Returns the emitted trace and the
exception that propagated, if any. -/
def scan_and_move_to_fit_pos (sr : ScanResult) (moveErr : Option PyError)
    (loc : PeakPosition) : List Event × Option PyError :=
  match sr with
  | .fail steps e => (steps.map Event.scanStep, some e)
  | .ok steps ps =>
      match get_stat_loc ps loc with
      | (.error e, printed) =>
          (steps.map Event.scanStep ++ printed.map Event.printOut, some e)
      | (.ok pos, printed) =>
          (steps.map Event.scanStep ++ printed.map Event.printOut
             ++ [Event.moveCmd pos],
           moveErr)

/-- Number of move commands in a trace. -/
def countMoves (tr : List Event) : Nat :=
  (tr.filter (fun e => match e with | .moveCmd _ => true | _ => false)).length

/-! ### `align_slit_with_look_up` -/

/-- `align_slit_with_look_up(motor, size, slit_table, det, centre_type)`.

The external collaborators are parameters: `rc` is `cal_range_num`
(treated as an opaque range calculator, per the spec), `scan`/`moveErr`
are the outcomes of the decorated step scan and of the move it issues,
and `readback` is the value `read(motor.user_readback)` yields after the
move.  Returns the emitted trace, the table as left behind, and the
exception that propagated, if any.

Faithful to the source: the membership test uses `str(int(size))`, the
scan-centre read uses `slit_table[str(size)]` (an unhandled `KeyError`
when absent), the missing-size message interpolates `slit_table.keys`
without calling it (so the f-string renders the bound method object, not
the keys; the memory address in that repr is elided here), and the final
table write uses key `str(size)`. -/
def align_slit_with_look_up (rc : ℚ → ℚ → ℚ → ℚ × ℚ × Nat)
    (size : PySize) (slit_table : Table)
    (scan : ScanResult) (moveErr : Option PyError) (readback : ℚ)
    (centre_type : PeakPosition) :
    List Event × Table × Option PyError :=
  if !validMotorTable slit_table then
    ([], slit_table, some .validationError)
  else if (slit_table.lookup (toString size.toInt)).isSome then
    match slit_table.lookup size.str with
    | none => ([], slit_table, some (.keyError size.str))
    | some cen =>
        let span := size.val / 1000 * 3
        let step := size.val / 5000
        let (start_pos, end_pos, num) := rc cen span step
        let pre := [Event.rangeCalcCall cen span step,
                    Event.scanCall start_pos end_pos num]
        match scan_and_move_to_fit_pos scan moveErr centre_type with
        | (tr, some e) => (pre ++ tr, slit_table, some e)
        | (tr, none) =>
            (pre ++ tr ++ [Event.readReadback],
             slit_table.set size.str readback, none)
  else
    ([], slit_table,
     some (.valueError ("Size of " ++ size.str
       ++ " is not in <built-in method keys of dict object>")))

/-- Predicate picking out range-calculator invocations in a trace. -/
def isRangeCall : Event → Bool
  | .rangeCalcCall _ _ _ => true
  | _ => false

/-! ### Concrete fixtures used by witnesses and counterexamples -/

/-- The lookup table of the spec's examples. -/
def table0 : Table := [("100", 5)]

/-- A table that also carries a fractional key, exercising the
`str(size)` / `str(int(size))` key split. -/
def table1 : Table := [("100", 5), ("100.5", 7)]

/-- The float `100.0`. -/
def size100f : PySize := .ofFloat ⟨1000, 1⟩

/-- The float `100.5`. -/
def size100_5 : PySize := .ofFloat ⟨1005, 1⟩

/-- A fully-fitted statistics record with centre `8`. -/
def recGood : StatsRecord :=
  { com := .scalar 2, cen := .scalar 8, min := .pyNone,
    max := .pyNone, fwhm := .scalar 1 }

/-- A statistics result whose `stats` group carries `recGood`. -/
def psGood : PeakStatsObj := { stats := some recGood, derivative_stats := none }

/-- A statistics result with no data at all. -/
def psNoGroup : PeakStatsObj := { stats := none, derivative_stats := none }

/-- A record whose `fwhm` is the falsy scalar `0`. -/
def recNoFwhm : StatsRecord :=
  { com := .scalar 2, cen := .scalar 8, min := .pyNone,
    max := .pyNone, fwhm := .scalar 0 }

/-- A statistics result whose fit produced no resolvable peak. -/
def psNoFwhm : PeakStatsObj := { stats := some recNoFwhm, derivative_stats := none }

/-- A record whose `cen` field is the multi-valued sequence `(1.5, 2.5)`. -/
def recSeq : StatsRecord :=
  { com := .pyNone, cen := .seq [3 / 2, 5 / 2], min := .pyNone,
    max := .pyNone, fwhm := .scalar 1 }

/-- A statistics result with the multi-valued `cen`. -/
def psSeq : PeakStatsObj := { stats := some recSeq, derivative_stats := none }

/-- A record whose `cen` field is an empty sequence. -/
def recEmptySeq : StatsRecord :=
  { com := .pyNone, cen := .seq [], min := .pyNone,
    max := .pyNone, fwhm := .scalar 1 }

/-- A statistics result whose `cen` field is an empty sequence. -/
def psEmptySeq : PeakStatsObj := { stats := some recEmptySeq, derivative_stats := none }

/-- A concrete stand-in for the opaque `cal_range_num` collaborator. -/
def rcEx : ℚ → ℚ → ℚ → ℚ × ℚ × Nat :=
  fun cen span _ => (cen - span / 2, cen + span / 2, 4)

/-- A completed scan of two points yielding `psGood`. -/
def scanGood : ScanResult := .ok [0, 1] psGood

/-! ## Helper lemmas -/

theorem countMoves_append (a b : List Event) :
    countMoves (a ++ b) = countMoves a + countMoves b := by
  simp [countMoves, List.filter_append]

theorem countMoves_map_scanStep (l : List Nat) :
    countMoves (l.map Event.scanStep) = 0 := by
  simp [countMoves]

theorem countMoves_map_printOut (l : List String) :
    countMoves (l.map Event.printOut) = 0 := by
  simp [countMoves]

theorem moveCmd_not_mem_scanSteps (pos : ℚ) (l : List Nat) :
    Event.moveCmd pos ∉ l.map Event.scanStep := by
  simp

theorem moveCmd_not_mem_printOuts (pos : ℚ) (l : List String) :
    Event.moveCmd pos ∉ l.map Event.printOut := by
  simp

theorem countMoves_single_move (pos : ℚ) :
    countMoves [Event.moveCmd pos] = 1 := rfl

theorem filter_isRangeCall_map_scanStep (l : List Nat) :
    (l.map Event.scanStep).filter isRangeCall = [] := by
  simp [isRangeCall]

theorem filter_isRangeCall_map_printOut (l : List String) :
    (l.map Event.printOut).filter isRangeCall = [] := by
  simp [isRangeCall]

theorem filter_isRangeCall_wrapper (sr : ScanResult) (moveErr : Option PyError)
    (loc : PeakPosition) :
    (scan_and_move_to_fit_pos sr moveErr loc).1.filter isRangeCall = [] := by
  cases sr with
  | fail steps e => simp [scan_and_move_to_fit_pos, filter_isRangeCall_map_scanStep]
  | ok steps ps =>
      rcases hgl : get_stat_loc ps loc with ⟨r, printed⟩
      cases r with
      | error e =>
          simp [scan_and_move_to_fit_pos, hgl, List.filter_append,
            filter_isRangeCall_map_scanStep, filter_isRangeCall_map_printOut]
      | ok pos =>
          simp [scan_and_move_to_fit_pos, hgl, List.filter_append,
            filter_isRangeCall_map_scanStep, filter_isRangeCall_map_printOut,
            isRangeCall]

theorem lookup_map_overwrite (t : Table) (k : String) (v : ℚ) :
    (t.map (fun p => if k == p.1 then (k, v) else p)).lookup k
      = (t.lookup k).map (fun _ => v) := by
  induction t with
  | nil => rfl
  | cons p t ih =>
      cases hpk : (k == p.1) with
      | true =>
          rw [List.map_cons, if_pos hpk]
          simp [List.lookup, hpk]
      | false =>
          rw [List.map_cons, if_neg (by simp [hpk])]
          simpa [List.lookup, hpk] using ih

theorem lookup_append_right_of_none (t₁ t₂ : Table) (k : String)
    (h : t₁.lookup k = none) : (t₁ ++ t₂).lookup k = t₂.lookup k := by
  induction t₁ with
  | nil => rfl
  | cons p t ih =>
      rcases hpk : (k == p.1) with _ | _
      · simp only [List.lookup, hpk] at h
        simpa [List.cons_append, List.lookup, hpk] using ih h
      · simp [List.lookup, hpk] at h

theorem lookup_set_self (t : Table) (k : String) (v : ℚ) :
    (Table.set t k v).lookup k = some v := by
  unfold Table.set
  rcases hs : t.lookup k with _ | w
  · rw [if_neg (by simp [hs])]
    rw [lookup_append_right_of_none t [(k, v)] k hs]
    simp [List.lookup]
  · rw [if_pos (by simp [hs])]
    rw [lookup_map_overwrite, hs]
    rfl

/-- Either `align_slit_with_look_up` fails and leaves the table alone,
or it succeeds and the table becomes the old table with the entry at
`str(size)` set to the readback. -/
theorem align_table_outcome (rc : ℚ → ℚ → ℚ → ℚ × ℚ × Nat) (size : PySize)
    (table : Table) (scan : ScanResult) (moveErr : Option PyError)
    (readback : ℚ) (loc : PeakPosition) :
    (((align_slit_with_look_up rc size table scan moveErr readback loc).2.2).isSome
        ∧ (align_slit_with_look_up rc size table scan moveErr readback loc).2.1
            = table) ∨
    ((align_slit_with_look_up rc size table scan moveErr readback loc).2.2 = none
        ∧ (align_slit_with_look_up rc size table scan moveErr readback loc).2.1
            = Table.set table size.str readback) := by
  unfold align_slit_with_look_up
  split
  · exact Or.inl ⟨rfl, rfl⟩
  · split
    · split
      · exact Or.inl ⟨rfl, rfl⟩
      · split
        · exact Or.inl ⟨rfl, rfl⟩
        · exact Or.inr ⟨rfl, rfl⟩
    · exact Or.inl ⟨rfl, rfl⟩

theorem lookup_eq_none_of_no_key (t : Table) (k : String)
    (h : ∀ p ∈ t, p.1 ≠ k) : t.lookup k = none := by
  induction t with
  | nil => rfl
  | cons p t ih =>
      have hne : (k == p.1) = false :=
        beq_eq_false_iff_ne.mpr fun hk => h p (List.mem_cons_self p t) hk.symm
      simp only [List.lookup, hne]
      exact ih fun q hq => h q (List.mem_cons_of_mem p hq)

/-! ## Claim theorems -/

/-- C1: every invocation of the `scan_and_move_to_fit_pos` wrapper
issues at most one move command; a move command appears in the trace
only when the wrapped scan completed and `get_stat_loc` succeeded, and
then it is the trace's final event, after every scan event; when fit
extraction fails no move command is issued at all. -/
theorem scanAndMove_move_ordering (sr : ScanResult) (moveErr : Option PyError)
    (loc : PeakPosition) :
    countMoves (scan_and_move_to_fit_pos sr moveErr loc).1 ≤ 1 ∧
    (∀ pos : ℚ, Event.moveCmd pos ∈ (scan_and_move_to_fit_pos sr moveErr loc).1 →
      ∃ (steps : List Nat) (ps : PeakStatsObj) (printed : List String),
        sr = ScanResult.ok steps ps ∧
        (get_stat_loc ps loc).1 = Except.ok pos ∧
        (scan_and_move_to_fit_pos sr moveErr loc).1
          = steps.map Event.scanStep ++ printed.map Event.printOut
              ++ [Event.moveCmd pos]) ∧
    (∀ steps ps e, sr = ScanResult.ok steps ps →
      (get_stat_loc ps loc).1 = Except.error e →
      countMoves (scan_and_move_to_fit_pos sr moveErr loc).1 = 0) := by
  cases sr with
  | fail steps e =>
      refine ⟨?_, ?_, ?_⟩
      · simp [scan_and_move_to_fit_pos, countMoves_map_scanStep]
      · intro pos hmem
        exact absurd hmem (by simp [scan_and_move_to_fit_pos])
      · intro _ _ _ h
        exact absurd h (by simp)
  | ok steps ps =>
      rcases hgl : get_stat_loc ps loc with ⟨r, printed⟩
      cases r with
      | error e =>
          refine ⟨?_, ?_, ?_⟩
          · simp [scan_and_move_to_fit_pos, hgl, countMoves_append,
              countMoves_map_scanStep, countMoves_map_printOut]
          · intro pos hmem
            simp [scan_and_move_to_fit_pos, hgl] at hmem
          · intro _ _ _ _ _
            simp [scan_and_move_to_fit_pos, hgl, countMoves_append,
              countMoves_map_scanStep, countMoves_map_printOut]
      | ok pos =>
          refine ⟨?_, ?_, ?_⟩
          · simp [scan_and_move_to_fit_pos, hgl, countMoves_append,
              countMoves_map_scanStep, countMoves_map_printOut,
              countMoves_single_move]
          · intro pos' hmem
            simp [scan_and_move_to_fit_pos, hgl] at hmem
            refine ⟨steps, ps, printed, rfl, ?_, ?_⟩
            · rw [hgl, hmem]
            · simp [scan_and_move_to_fit_pos, hgl, hmem]
          · intro steps' ps' e hok herr
            cases hok
            rw [hgl] at herr
            simp at herr

/-- Witness for C1: a concrete run whose fit extraction fails issues no
move command. -/
theorem scanAndMove_move_ordering_witness :
    countMoves (scan_and_move_to_fit_pos (ScanResult.ok [0] psNoGroup)
      none PeakPosition.CEN).1 = 0 :=
  (scanAndMove_move_ordering (ScanResult.ok [0] psNoGroup) none PeakPosition.CEN).2.2
    [0] psNoGroup
    (PyError.valueError "Fitting failed, check devices name are correct.") rfl rfl

/-- C2 counterexample: for the float size `100.0`, `str(int(size)) =
"100"` is a key of `table0`, yet `align_slit_with_look_up` never invokes
the range calculator: it raises `KeyError("100.0")` from
`slit_table[str(size)]` with an empty trace, so it is not invoked with
`center=5.0, span=0.3, step=0.02` (nor any other arguments). -/
theorem align_rangeCalc_args_cex :
    (table0.lookup (toString size100f.toInt)).isSome = true ∧
    (align_slit_with_look_up rcEx size100f table0 scanGood none 9
      PeakPosition.CEN).1 = [] ∧
    (align_slit_with_look_up rcEx size100f table0 scanGood none 9
      PeakPosition.CEN).2.2 = some (PyError.keyError "100.0") :=
  ⟨rfl, rfl, rfl⟩

/-- C2 (amended): for every size whose `str(size)` equals
`str(int(size))` (integer-typed sizes) and is a key of the table,
`align_slit_with_look_up` invokes the range calculator exactly once,
with `center = table[str(size)]` as it existed at call time,
`span = size / 1000 * 3` and `step = size / 5000`. -/
theorem align_rangeCalc_args (rc : ℚ → ℚ → ℚ → ℚ × ℚ × Nat) (size : PySize)
    (table : Table) (scan : ScanResult) (moveErr : Option PyError)
    (readback : ℚ) (loc : PeakPosition) (cen : ℚ)
    (hv : validMotorTable table = true)
    (hk : size.str = toString size.toInt)
    (hc : table.lookup size.str = some cen) :
    (align_slit_with_look_up rc size table scan moveErr readback loc).1.filter
        isRangeCall
      = [Event.rangeCalcCall cen (size.val / 1000 * 3) (size.val / 5000)] := by
  have hmem : (table.lookup (toString size.toInt)).isSome = true := by
    rw [← hk, hc]; rfl
  unfold align_slit_with_look_up
  rw [hv]
  simp only [Bool.not_true, Bool.false_eq_true, if_false, hmem, if_true, hc]
  rcases hrc : rc cen (size.val / 1000 * 3) (size.val / 5000) with ⟨sp, ep, n⟩
  rcases hw : scan_and_move_to_fit_pos scan moveErr loc with ⟨tr, err⟩
  have htr : tr.filter isRangeCall = [] := by
    have := filter_isRangeCall_wrapper scan moveErr loc
    rwa [hw] at this
  cases err with
  | none =>
      simp [hrc, hw, List.filter_append, htr, isRangeCall]
  | some e =>
      simp [hrc, hw, List.filter_append, htr, isRangeCall]

/-- Witness for C2 (amended): for `size = 100` (integer) and
`table0 = {"100": 5.0}` the range calculator receives exactly
`center = 5`, `span = 100/1000*3 = 0.3` and `step = 100/5000 = 0.02`. -/
theorem align_rangeCalc_args_witness :
    (align_slit_with_look_up rcEx (PySize.ofInt 100) table0 scanGood none 9
        PeakPosition.CEN).1.filter isRangeCall
      = [Event.rangeCalcCall 5 ((PySize.ofInt 100).val / 1000 * 3)
          ((PySize.ofInt 100).val / 5000)] ∧
    (PySize.ofInt 100).val / 1000 * 3 = 3 / 10 ∧
    (PySize.ofInt 100).val / 5000 = 1 / 50 :=
  ⟨align_rangeCalc_args rcEx (PySize.ofInt 100) table0 scanGood none 9
      PeakPosition.CEN 5 rfl rfl rfl,
   by norm_num [PySize.val], by norm_num [PySize.val]⟩

/-- C3 counterexample: a successful run with the float size `100.5` over
`table1 = {"100": 5.0, "100.5": 7.0}` and post-move readback `9` leaves
the entry for the computed key `str(int(size)) = "100"` at its pre-scan
value `5`, not at the readback: the final write goes to `str(size) =
"100.5"` instead. -/
theorem align_table_write_cex :
    (align_slit_with_look_up rcEx size100_5 table1 scanGood none 9
      PeakPosition.CEN).2.2 = none ∧
    toString size100_5.toInt = "100" ∧
    ((align_slit_with_look_up rcEx size100_5 table1 scanGood none 9
      PeakPosition.CEN).2.1).lookup "100" = some 5 ∧
    (5 : ℚ) ≠ 9 :=
  ⟨rfl, rfl, rfl, by norm_num⟩

/-- C3 (amended): after a successful `align_slit_with_look_up`
invocation, the table entry for `str(size)` — which for integer-typed
sizes is the computed key `str(int(size))` — equals the post-move
settled readback, not the pre-scan value that seeded the scan window. -/
theorem align_table_write (rc : ℚ → ℚ → ℚ → ℚ × ℚ × Nat) (size : PySize)
    (table : Table) (scan : ScanResult) (moveErr : Option PyError)
    (readback : ℚ) (loc : PeakPosition)
    (h : (align_slit_with_look_up rc size table scan moveErr readback loc).2.2
      = none) :
    ((align_slit_with_look_up rc size table scan moveErr readback loc).2.1).lookup
        size.str
      = some readback := by
  rcases align_table_outcome rc size table scan moveErr readback loc with
    ⟨hs, _⟩ | ⟨_, ht⟩
  · rw [h] at hs
    exact absurd hs (by simp)
  · rw [ht]
    exact lookup_set_self table size.str readback

/-- Witness for C3 (amended): the spec's example — integer `size = 100`,
`table0 = {"100": 5.0}`, readback `9` — ends with `table["100"] = 9`. -/
theorem align_table_write_witness :
    ((align_slit_with_look_up rcEx (PySize.ofInt 100) table0 scanGood none 9
      PeakPosition.CEN).2.1).lookup (PySize.ofInt 100).str = some 9 :=
  align_table_write rcEx (PySize.ofInt 100) table0 scanGood none 9
    PeakPosition.CEN rfl

/-- C4: whenever `align_slit_with_look_up` fails — schema validation,
missing key, the `str(size)` key read, scan error, fit failure, or move
error, all of which surface as a propagated exception — the lookup
table is returned exactly as it was at call time. -/
theorem align_fail_table_unchanged (rc : ℚ → ℚ → ℚ → ℚ × ℚ × Nat)
    (size : PySize) (table : Table) (scan : ScanResult)
    (moveErr : Option PyError) (readback : ℚ) (loc : PeakPosition)
    (h : ((align_slit_with_look_up rc size table scan moveErr readback
      loc).2.2).isSome = true) :
    (align_slit_with_look_up rc size table scan moveErr readback loc).2.1
      = table := by
  rcases align_table_outcome rc size table scan moveErr readback loc with
    ⟨_, ht⟩ | ⟨hn, _⟩
  · exact ht
  · rw [hn] at h
    exact absurd h (by simp)

/-- Witness for C4: `align(size=999, table0, ...)` fails on the missing
key and leaves `table0 = {"100": 5.0}` unchanged. -/
theorem align_fail_table_unchanged_witness :
    (align_slit_with_look_up rcEx (PySize.ofInt 999) table0 scanGood none 9
      PeakPosition.CEN).2.1 = table0 :=
  align_fail_table_unchanged rcEx (PySize.ofInt 999) table0 scanGood none 9
    PeakPosition.CEN rfl

/-- C5: `align(size=999, table0={"100": 5.0}, ...)` does fail before any
scan or motion (empty trace, table unchanged), but the message of the
raised `ValueError` does not mention the available key `"100"`: the
f-string interpolates `slit_table.keys` without calling it, so the
message renders the bound-method object (its memory address is elided in
this embedding), not the keys. -/
theorem align_missing_key_message :
    (align_slit_with_look_up rcEx (PySize.ofInt 999) table0 scanGood none 9
        PeakPosition.CEN)
      = ([], table0,
          some (PyError.valueError
            "Size of 999 is not in <built-in method keys of dict object>")) ∧
    ¬ ("100".toList
        <:+: "Size of 999 is not in <built-in method keys of dict object>".toList) :=
  ⟨rfl, by decide⟩

theorem validMotorTable_of_integerKeyed (t : Table)
    (h : integerKeyed t = true) : validMotorTable t = true := by
  unfold integerKeyed at h
  unfold validMotorTable
  rw [List.all_eq_true] at h ⊢
  intro p hp
  obtain ⟨hne, hdig⟩ := Bool.and_eq_true_iff.mp (h p hp)
  have hall : ∀ c ∈ p.1.toList, c.isDigit = true := List.all_eq_true.mp hdig
  have hcount : p.1.toList.count '.' = 0 :=
    List.count_eq_zero.mpr fun hmem => by
      have := hall '.' hmem
      exact absurd this (by decide)
  have hany : p.1.toList.any Char.isDigit = true := by
    cases hl : p.1.toList with
    | nil => rw [hl] at hne; exact absurd hne (by decide)
    | cons c rest =>
        have := hall c (by rw [hl]; exact List.mem_cons_self c rest)
        simp [hl, this]
  unfold isNumericString
  simp only [Bool.and_eq_true]
  refine ⟨⟨⟨hne, ?_⟩, ?_⟩, hany⟩
  · exact List.all_eq_true.mpr fun c hc => by simp [hall c hc]
  · have hd : List.count '.' p.1.data = 0 := hcount
    simp [hd]

theorem dot_mem_floatStr (f : PyFloat) : '.' ∈ (PyFloat.str f).toList := by
  unfold PyFloat.str
  simp [String.toList]

theorem lookup_none_of_dotted_key (t : Table) (s : String)
    (hik : integerKeyed t = true) (hdot : '.' ∈ s.toList) :
    t.lookup s = none := by
  refine lookup_eq_none_of_no_key t s fun p hp heq => ?_
  unfold integerKeyed at hik
  obtain ⟨_, hdig⟩ := Bool.and_eq_true_iff.mp (List.all_eq_true.mp hik p hp)
  rw [heq] at hdig
  have := List.all_eq_true.mp hdig '.' hdot
  exact absurd this (by decide)

/-- C6: for every statistics result and feature selector, `get_stat_loc`
raises the fit-failure `ValueError` for a missing/empty group, and the
no-resolvable-peak `ValueError` when the group's `fwhm` is falsy; in
both cases no value is returned. -/
theorem get_stat_loc_failures (ps : PeakStatsObj) (loc : PeakPosition) :
    (ps.get loc.value.1 = none →
      (get_stat_loc ps loc).1 = Except.error
        (PyError.valueError "Fitting failed, check devices name are correct.")) ∧
    (∀ stat, ps.get loc.value.1 = some stat →
      (stat.field "fwhm").truthy = false →
      (get_stat_loc ps loc).1 = Except.error
        (PyError.valueError "Fitting failed, no peak within scan range.")) := by
  constructor
  · intro h
    simp [get_stat_loc, h]
  · intro stat h hf
    simp [get_stat_loc, h, hf]

/-- Witness for C6: a result with no `stats` group raises the first
message; a result whose `fwhm` is the falsy `0` raises the second. -/
theorem get_stat_loc_failures_witness :
    (get_stat_loc psNoGroup PeakPosition.CEN).1 = Except.error
      (PyError.valueError "Fitting failed, check devices name are correct.") ∧
    (get_stat_loc psNoFwhm PeakPosition.CEN).1 = Except.error
      (PyError.valueError "Fitting failed, no peak within scan range.") :=
  ⟨(get_stat_loc_failures psNoGroup PeakPosition.CEN).1 rfl,
   (get_stat_loc_failures psNoFwhm PeakPosition.CEN).2 recNoFwhm rfl (by decide)⟩

/-- C7: on a validated result (group present, truthy `fwhm`),
`get_stat_loc` returns a scalar field value as is, and returns the first
element of a multi-valued field. -/
theorem get_stat_loc_value_selection (ps : PeakStatsObj) (loc : PeakPosition)
    (stat : StatsRecord) (hg : ps.get loc.value.1 = some stat)
    (hf : (stat.field "fwhm").truthy = true) :
    (∀ x : ℚ, stat.field loc.value.2 = StatValue.scalar x →
      (get_stat_loc ps loc).1 = Except.ok x) ∧
    (∀ (x : ℚ) (xs : List ℚ), stat.field loc.value.2 = StatValue.seq (x :: xs) →
      (get_stat_loc ps loc).1 = Except.ok x) := by
  constructor
  · intro x hx
    simp [get_stat_loc, hg, hf, hx]
  · intro x xs hx
    simp [get_stat_loc, hg, hf, hx]

/-- Witness for C7: a scalar `cen` of `8` is returned as is, and the
multi-valued `cen = (1.5, 2.5)` yields its first candidate `1.5`. -/
theorem get_stat_loc_value_selection_witness :
    (get_stat_loc psGood PeakPosition.CEN).1 = Except.ok 8 ∧
    (get_stat_loc psSeq PeakPosition.CEN).1 = Except.ok (3 / 2) :=
  ⟨(get_stat_loc_value_selection psGood PeakPosition.CEN recGood rfl
      (by decide)).1 8 rfl,
   (get_stat_loc_value_selection psSeq PeakPosition.CEN recSeq rfl
      (by decide)).2 (3 / 2) [5 / 2] rfl⟩

/-- C8 counterexample: `get_stat_loc` is not side-effect-free — at a
concrete validated input it prints one line (the bare `print(stat)` in
the source) to stdout. -/
theorem get_stat_loc_prints_cex :
    ((get_stat_loc psGood PeakPosition.CEN).2).length = 1 := rfl

/-- C8 (amended): `get_stat_loc` is deterministic — identical
`(result, feature)` inputs yield the identical returned value and the
identical stdout output — but it is not side-effect-free: whenever the
group check passes it prints the stats record. -/
theorem get_stat_loc_deterministic (ps₁ ps₂ : PeakStatsObj)
    (loc₁ loc₂ : PeakPosition) (h₁ : ps₁ = ps₂) (h₂ : loc₁ = loc₂) :
    get_stat_loc ps₁ loc₁ = get_stat_loc ps₂ loc₂ ∧
    (∀ stat, ps₁.get loc₁.value.1 = some stat →
      (get_stat_loc ps₁ loc₁).2 = [reprStr stat]) := by
  subst h₁
  subst h₂
  refine ⟨rfl, fun stat h => ?_⟩
  simp only [get_stat_loc, h]
  cases hf : (stat.field "fwhm").truthy
  · simp
  · simp only [Bool.not_true, Bool.false_eq_true, if_false]
    rcases hv : stat.field loc₁.value.2 with _ | x | xs
    · rfl
    · rfl
    · cases xs <;> rfl

/-- Witness for C8 (amended): determinism and the printed record at a
concrete input. -/
theorem get_stat_loc_deterministic_witness :
    get_stat_loc psGood PeakPosition.CEN = get_stat_loc psGood PeakPosition.CEN ∧
    (get_stat_loc psGood PeakPosition.CEN).2 = [reprStr recGood] :=
  ⟨(get_stat_loc_deterministic psGood psGood PeakPosition.CEN PeakPosition.CEN
      rfl rfl).1,
   (get_stat_loc_deterministic psGood psGood PeakPosition.CEN PeakPosition.CEN
      rfl rfl).2 recGood rfl⟩

/-- C9 counterexample: when the selected field is an empty sequence in a
validated result, `get_stat_loc` crashes with an `IndexError`
(`stat_pos[0]` on an empty tuple), not with the fit-failure
`ValueError`. -/
theorem get_stat_loc_empty_seq_cex :
    (get_stat_loc psEmptySeq PeakPosition.CEN).1
      = Except.error PyError.indexError := rfl

/-- C9 (amended): for every validated result whose selected field is an
empty sequence, `get_stat_loc` raises an `IndexError` rather than a
fit-failure `ValueError`. -/
theorem get_stat_loc_empty_seq (ps : PeakStatsObj) (loc : PeakPosition)
    (stat : StatsRecord) (hg : ps.get loc.value.1 = some stat)
    (hf : (stat.field "fwhm").truthy = true)
    (hx : stat.field loc.value.2 = StatValue.seq []) :
    (get_stat_loc ps loc).1 = Except.error PyError.indexError := by
  simp [get_stat_loc, hg, hf, hx]

/-- Witness for C9 (amended): the concrete empty-sequence input. -/
theorem get_stat_loc_empty_seq_witness :
    (get_stat_loc psEmptySeq PeakPosition.CEN).1
      = Except.error PyError.indexError :=
  get_stat_loc_empty_seq psEmptySeq PeakPosition.CEN recEmptySeq rfl
    (by decide) rfl

/-- C10: over a table with the spec's canonical decimal-integer-text
keys, every size whose `str(size)` differs from `str(int(size))` (every
genuine float argument) while `str(int(size))` is a key passes the
membership check and then fails with an unhandled `KeyError` on the
`slit_table[str(size)]` read, before any scan or motion, leaving the
table unchanged; only integer-typed sizes use the same key throughout. -/
theorem align_float_size_key_crash (rc : ℚ → ℚ → ℚ → ℚ × ℚ × Nat)
    (size : PySize) (table : Table) (scan : ScanResult)
    (moveErr : Option PyError) (readback : ℚ) (loc : PeakPosition)
    (hik : integerKeyed table = true)
    (hmem : (table.lookup (toString size.toInt)).isSome = true)
    (hne : size.str ≠ toString size.toInt) :
    align_slit_with_look_up rc size table scan moveErr readback loc
      = ([], table, some (PyError.keyError size.str)) := by
  have hv : validMotorTable table = true :=
    validMotorTable_of_integerKeyed table hik
  have hdot : '.' ∈ size.str.toList := by
    cases size with
    | ofInt n => exact absurd rfl hne
    | ofFloat f => exact dot_mem_floatStr f
  have hnone : table.lookup size.str = none :=
    lookup_none_of_dotted_key table size.str hik hdot
  unfold align_slit_with_look_up
  simp [hv, hmem, hnone]

/-- Witness for C10: the float `size = 100.5` against
`table0 = {"100": 5.0}` passes the membership check on `"100"` and then
raises `KeyError("100.5")` with no scan, no motion, and the table
untouched. -/
theorem align_float_size_key_crash_witness :
    align_slit_with_look_up rcEx size100_5 table0 scanGood none 9
        PeakPosition.CEN
      = ([], table0, some (PyError.keyError size100_5.str)) :=
  align_float_size_key_crash rcEx size100_5 table0 scanGood none 9
    PeakPosition.CEN rfl rfl (by decide)

end I10Align
